import Mathlib

/-!
Verification of the chunked-transcription pipeline of `auto_notes`
(`src/app.py` and `src/app2.py`).  The two files contain the same helper
functions (`extract_audio`, `convert_and_transcribe`, `summarize_text`,
`convert_to_bullets`); the embeddings below follow `src/app.py` line by
line and note where `src/app2.py` differs.

Python floats are modelled as exact rationals (`ℚ`), Python strings as
Lean `String` (with the Python string primitives `strip`, `split` and
`replace` re-implemented structurally on `List Char`, restricted to the
ASCII whitespace characters the inputs here can contain), and the
external speech-recognition call as an oracle `ℕ → ChunkResult` giving
the outcome of the request for each chunk index.
-/

namespace AutoNotes

/-! ### Python string primitives -/

/-- The whitespace characters removed by Python `str.strip()` (ASCII part). -/
def isPySpace (c : Char) : Bool :=
  c = ' ' || c = '\t' || c = '\n' || c = '\r' || c = '\x0b' || c = '\x0c'

/-- Python `str.strip()` on a character list: drop whitespace at both ends. -/
def pyStripList (s : List Char) : List Char :=
  ((s.dropWhile isPySpace).reverse.dropWhile isPySpace).reverse

/-- Python `str.strip()` on strings. -/
def pyStrip (s : String) : String :=
  (pyStripList s.toList).asString

/-- Python `str.replace("<n>", ". ")` (app.py line 109 / app2.py line 117):
replace every occurrence of the paragraph-break marker `<n>`, scanning
left to right. -/
def replace_n : List Char → List Char
  | '<' :: 'n' :: '>' :: rest => '.' :: ' ' :: replace_n rest
  | c :: rest => c :: replace_n rest
  | [] => []

/-- Python `str.split(".")` (app.py line 109 / app2.py line 118): cut at
every period; adjacent periods and boundary periods produce empty
fragments, and the empty string yields one empty fragment. -/
def splitDot : List Char → List (List Char)
  | [] => [[]]
  | '.' :: rest => [] :: splitDot rest
  | c :: rest =>
    match splitDot rest with
    | [] => [[c]]
    | grp :: grps => (c :: grp) :: grps

/-! ### Chunk boundary arithmetic (`convert_and_transcribe`, app.py lines 59-66) -/

/-- `chunk_length = 30` (app.py line 59 / app2.py line 51).  The window
arithmetic below is parameterised over the chunk length `cl`, as the
spec requires; the source fixes it to this value. -/
def chunk_length : ℚ := 30

/-- `num_chunks = math.ceil(total_duration / chunk_length)`
(app.py line 60 / app2.py line 52). -/
def num_chunks (total_duration cl : ℚ) : ℕ :=
  (Int.ceil (total_duration / cl)).toNat

/-- `start = i * chunk_length` (app.py line 65 / app2.py line 55). -/
def windowStart (cl : ℚ) (i : ℕ) : ℚ := (i : ℚ) * cl

/-- `end = min((i + 1) * chunk_length, total_duration)`
(app.py line 66 / app2.py line 56). -/
def windowEnd (total_duration cl : ℚ) (i : ℕ) : ℚ :=
  min (((i : ℚ) + 1) * cl) total_duration

/-- The `(start, end)` windows generated by the loop
`for i in range(num_chunks)` (app.py lines 64-66); window `i` is read
with `recognizer.record(src, offset=start, duration=end - start)` and
submitted to the recognition service. -/
def windows (total_duration cl : ℚ) : List (ℚ × ℚ) :=
  (List.range (num_chunks total_duration cl)).map
    (fun i => (windowStart cl i, windowEnd total_duration cl i))

/-! ### Per-chunk outcomes and transcript assembly (app.py lines 68-79) -/

/-- Outcome of one `recognize_google` request: normal return with text,
`sr.UnknownValueError`, or `sr.RequestError` with a message. -/
inductive ChunkResult where
  | recognized (text : String)
  | unintelligible
  | serviceError (message : String)
deriving DecidableEq

/-- Whether an outcome is the request-level `sr.RequestError`. -/
def isServiceError : ChunkResult → Bool
  | ChunkResult.serviceError _ => true
  | _ => false

/-- The chunk loop acting on the accumulator `text_output`
(app.py lines 70-77): recognized text appends `chunk_text + " "`,
`UnknownValueError` is skipped, `RequestError` executes `break`. -/
def transcribeLoop : String → List ChunkResult → String
  | acc, [] => acc
  | acc, ChunkResult.recognized t :: rest => transcribeLoop (acc ++ t ++ " ") rest
  | acc, ChunkResult.unintelligible :: rest => transcribeLoop acc rest
  | acc, ChunkResult.serviceError _ :: _ => acc

/-- Transcript produced from a given per-window outcome sequence:
run the chunk loop from the empty buffer, then `return text_output.strip()`
(app.py line 79). -/
def assemble_transcript (outcomes : List ChunkResult) : String :=
  pyStrip (transcribeLoop ("") outcomes)

/-- `convert_and_transcribe` (app.py lines 46-79), with the external
recognition service abstracted as an oracle from chunk index to outcome:
the loop requests chunk `i` for each `i in range(num_chunks)` in index
order, stopping at the first `RequestError`. -/
def convert_and_transcribe (total_duration cl : ℚ)
    (recognize : ℕ → ChunkResult) : String :=
  assemble_transcript ((List.range (num_chunks total_duration cl)).map recognize)

/-- Number of recognition requests the loop issues before exiting:
every outcome up to and including the first `RequestError`, or all of
them when no `RequestError` occurs. -/
def chunksProcessed : List ChunkResult → ℕ
  | [] => 0
  | ChunkResult.serviceError _ :: _ => 1
  | _ :: rest => chunksProcessed rest + 1

/-! ### `summarize_text` (app.py lines 85-102, app2.py lines 76-104) -/

/-- Result of a `summarize_text` call, keeping track of whether the
Pegasus tokenizer/generate pipeline was invoked: `sentinel` is an early
return without touching the model, `modelInvoked` records the text that
was handed to the tokenizer. -/
inductive SummarizeOutcome where
  | sentinel (message : String)
  | modelInvoked (inputText : String)
deriving DecidableEq

/-- `summarize_text(text)` (app.py lines 85-102).  The guard is
`if not text:` (line 86), which for a Python string tests emptiness
only; any non-empty text, whitespace included, reaches the model. -/
def summarize_text (text : String) : SummarizeOutcome :=
  if text = "" then SummarizeOutcome.sentinel ("⚠️ No extracted text found.")
  else SummarizeOutcome.modelInvoked text

/-- `summarize_text(input_file, ...)` (app2.py lines 76-104), modelled on
the content of `extract.txt` (`none` means the file does not exist).
The file content is stripped on read (line 81) before the emptiness
check (line 83). -/
def summarize_text2 (input_file : Option String) : SummarizeOutcome :=
  match input_file with
  | none => SummarizeOutcome.sentinel ("extract.txt not found.")
  | some content =>
    if pyStrip content = "" then
      SummarizeOutcome.sentinel ("⚠️ extract.txt is empty — nothing to summarize.")
    else SummarizeOutcome.modelInvoked (pyStrip content)

/-- Whether a `summarize_text` call short-circuited without invoking the
model. -/
def isSentinel : SummarizeOutcome → Bool
  | SummarizeOutcome.sentinel _ => true
  | SummarizeOutcome.modelInvoked _ => false

/-! ### `convert_to_bullets` (app.py lines 108-111, app2.py lines 110-126) -/

/-- `convert_to_bullets(summary)` (app.py lines 108-111):
`sentences = [s.strip() for s in summary.replace("<n>", ". ").split(".") if s.strip()]`
then `"\n".join([f"• \x7bs\x7d." for s in sentences])`. -/
def convert_to_bullets (summary : String) : String :=
  String.intercalate ("\n")
    (((((splitDot (replace_n summary.toList)).map pyStripList).filter
        (fun s => s ≠ [])).map (fun s => "• " ++ s.asString ++ ".")))

/-- The `BulletList` of the spec, following the wording of spec section 4.5:
normalize the paragraph-break marker to `". "`, split on `.`, trim each
fragment, drop empty fragments, render each surviving fragment as
`"• " + fragment + "."`, preserving split order. -/
def toBullets (summary : String) : List String :=
  ((((splitDot (replace_n summary.toList)).map pyStripList).filter
      (fun s => s ≠ [])).map (fun fragment => "• " ++ fragment.asString ++ "."))

/-! ### `extract_audio` (app.py lines 35-40, app2.py lines 26-31) -/

/-- The aspects of an input container that decide the control flow of
`extract_audio`: whether `VideoFileClip` can open it, and whether the
opened clip has an audio track (`clip.audio` is `None` otherwise). -/
structure VideoFile where
  decodable : Bool
  hasAudioStream : Bool
deriving DecidableEq

/-- The Python exceptions relevant to `extract_audio`.
`noAudioStreamError` is the dedicated missing-audio error named by the
spec; no such exception class exists anywhere in the source. -/
inductive PyError where
  | decodeError (message : String)
  | attributeError (message : String)
  | noAudioStreamError (message : String)
deriving DecidableEq

/-- Resource bookkeeping for one `extract_audio` call: whether
`VideoFileClip(video_path)` ran to completion, and whether
`clip.close()` was reached. -/
structure ExtractTrace where
  clipOpened : Bool
  clipClosed : Bool
deriving DecidableEq

/-- `extract_audio(video_path)` (app.py lines 35-40).  A malformed
container makes `VideoFileClip` raise before a clip exists; a container
without an audio stream gives `clip.audio = None`, so
`clip.audio.write_audiofile(...)` raises `AttributeError` and the
`clip.close()` on the next line is never reached; otherwise the audio
is written and the clip is closed. -/
def extract_audio (v : VideoFile) : Except PyError String × ExtractTrace :=
  if v.decodable = false then
    (Except.error (PyError.decodeError ("failed to decode video container")),
     ⟨false, false⟩)
  else if v.hasAudioStream = false then
    (Except.error (PyError.attributeError
        ("NoneType object has no attribute write_audiofile")),
     ⟨true, false⟩)
  else
    (Except.ok ("uploads/audio.mp3"), ⟨true, true⟩)

/-- Whether an `extract_audio` result is the dedicated missing-audio
error of the spec taxonomy. -/
def isNoAudioStreamError : Except PyError String → Bool
  | Except.error (PyError.noAudioStreamError _) => true
  | _ => false

/-! ### Window arithmetic lemmas -/

/-- Index `i` is processed by the chunk loop exactly when its start lies
strictly before the total duration. -/
lemma lt_num_chunks_iff {d cl : ℚ} (hcl : 0 < cl) (i : ℕ) :
    i < num_chunks d cl ↔ (i : ℚ) * cl < d := by
  unfold num_chunks
  rw [Int.lt_toNat, Int.lt_ceil]
  push_cast
  rw [lt_div_iff₀ hcl]

/-- Every processed window starts strictly before it ends. -/
lemma windowStart_lt_windowEnd {d cl : ℚ} (hcl : 0 < cl) {i : ℕ}
    (hi : i < num_chunks d cl) :
    windowStart cl i < windowEnd d cl i := by
  have h := (lt_num_chunks_iff hcl i).1 hi
  unfold windowStart windowEnd
  apply lt_min _ h
  nlinarith

/-- The loop generates one window per chunk index. -/
lemma windows_length (d cl : ℚ) : (windows d cl).length = num_chunks d cl := by
  simp [windows]

/-- Window `i` carries exactly the start and end the source computes. -/
lemma windows_getElem (d cl : ℚ) (i : ℕ) (hi : i < num_chunks d cl) :
    (windows d cl)[i]? = some ((i : ℚ) * cl, min (((i : ℚ) + 1) * cl) d) := by
  simp [windows, List.getElem?_range, hi, windowStart, windowEnd]

/-- Each window except the last ends where the next one starts. -/
lemma windowEnd_eq_of_lt {d cl : ℚ} (hcl : 0 < cl) {i : ℕ}
    (hi : i + 1 < num_chunks d cl) :
    windowEnd d cl i = windowStart cl (i + 1) := by
  have h := (lt_num_chunks_iff hcl (i + 1)).1 hi
  push_cast at h
  unfold windowEnd windowStart
  push_cast
  exact min_eq_left h.le

/-- Windows with smaller index end no later than later windows start. -/
lemma windowEnd_le_windowStart {d cl : ℚ} (hcl : 0 < cl) {i j : ℕ} (hij : i < j) :
    windowEnd d cl i ≤ windowStart cl j := by
  unfold windowEnd windowStart
  refine le_trans (min_le_left _ _) ?_
  have h : ((i : ℚ) + 1) ≤ (j : ℚ) := by exact_mod_cast hij
  nlinarith

/-- Every time point in `[0, total_duration)` lies in some window. -/
lemma window_cover {d cl : ℚ} (hcl : 0 < cl) {x : ℚ} (hx0 : 0 ≤ x) (hxd : x < d) :
    ∃ i, i < num_chunks d cl ∧ windowStart cl i ≤ x ∧ x < windowEnd d cl i := by
  have hxcl : 0 ≤ x / cl := div_nonneg hx0 hcl.le
  have hfl : (((Int.floor (x / cl)).toNat : ℤ) : ℚ) = ((Int.floor (x / cl) : ℤ) : ℚ) := by
    rw [Int.toNat_of_nonneg (Int.floor_nonneg.2 hxcl)]
  have hle : ((Int.floor (x / cl)).toNat : ℚ) * cl ≤ x := by
    rw [(le_div_iff₀ hcl).symm]
    calc ((Int.floor (x / cl)).toNat : ℚ)
        = ((Int.floor (x / cl) : ℤ) : ℚ) := by push_cast at hfl ⊢; exact hfl
      _ ≤ x / cl := Int.floor_le _
  have hlt : x < (((Int.floor (x / cl)).toNat : ℚ) + 1) * cl := by
    rw [(div_lt_iff₀ hcl).symm]
    calc x / cl < ((Int.floor (x / cl) : ℤ) : ℚ) + 1 := Int.lt_floor_add_one _
      _ = ((Int.floor (x / cl)).toNat : ℚ) + 1 := by push_cast at hfl ⊢; rw [hfl]
  refine ⟨(Int.floor (x / cl)).toNat, ?_, hle, lt_min hlt hxd⟩
  exact (lt_num_chunks_iff hcl _).2 (lt_of_le_of_lt hle hxd)

/-- A zero total duration generates zero chunks. -/
lemma num_chunks_zero (cl : ℚ) : num_chunks 0 cl = 0 := by
  unfold num_chunks
  rw [zero_div, Int.ceil_zero]
  rfl

/-! ### Transcript assembly lemmas -/

/-- Deleting an unintelligible outcome anywhere leaves the loop result
unchanged: the `UnknownValueError` branch appends nothing. -/
lemma transcribeLoop_unintelligible (acc : String) (pre post : List ChunkResult) :
    transcribeLoop acc (pre ++ ChunkResult.unintelligible :: post) =
      transcribeLoop acc (pre ++ post) := by
  induction pre generalizing acc with
  | nil => rfl
  | cons r pre ih =>
    cases r with
    | recognized t => simpa [transcribeLoop] using ih (acc ++ t ++ " ")
    | unintelligible => simpa [transcribeLoop] using ih acc
    | serviceError m => simp [transcribeLoop]

/-- If no service error occurs before it, the first `RequestError`
discards everything after it: the loop `break`s with the buffer it has. -/
lemma transcribeLoop_stop (acc : String) (pre : List ChunkResult)
    (h : ∀ r ∈ pre, isServiceError r = false) (m : String) (post : List ChunkResult) :
    transcribeLoop acc (pre ++ ChunkResult.serviceError m :: post) =
      transcribeLoop acc pre := by
  induction pre generalizing acc with
  | nil => rfl
  | cons r pre ih =>
    cases r with
    | recognized t =>
      simp only [List.cons_append, transcribeLoop]
      exact ih (acc ++ t ++ " ") (fun r hr => h r (List.mem_cons_of_mem _ hr))
    | unintelligible =>
      simp only [List.cons_append, transcribeLoop]
      exact ih acc (fun r hr => h r (List.mem_cons_of_mem _ hr))
    | serviceError m2 =>
      have hm := h _ (List.mem_cons_self _ _)
      simp [isServiceError] at hm

/-- The loop issues requests exactly up to and including the first
`RequestError`. -/
lemma chunksProcessed_stop (pre : List ChunkResult)
    (h : ∀ r ∈ pre, isServiceError r = false) (m : String) (post : List ChunkResult) :
    chunksProcessed (pre ++ ChunkResult.serviceError m :: post) = pre.length + 1 := by
  induction pre with
  | nil => rfl
  | cons r pre ih =>
    cases r with
    | recognized t =>
      simp only [List.cons_append, chunksProcessed, List.append_eq, List.length_cons]
      rw [ih (fun r hr => h r (List.mem_cons_of_mem _ hr))]
    | unintelligible =>
      simp only [List.cons_append, chunksProcessed, List.append_eq, List.length_cons]
      rw [ih (fun r hr => h r (List.mem_cons_of_mem _ hr))]
    | serviceError m2 =>
      have hm := h _ (List.mem_cons_self _ _)
      simp [isServiceError] at hm

/-- A run whose every outcome is unintelligible leaves the buffer as it
started. -/
lemma transcribeLoop_all_unintelligible (acc : String) (l : List ChunkResult)
    (h : ∀ r ∈ l, r = ChunkResult.unintelligible) :
    transcribeLoop acc l = acc := by
  induction l with
  | nil => rfl
  | cons r l ih =>
    have hr := h r (List.mem_cons_self _ _)
    subst hr
    exact ih (fun r hr => h r (List.mem_cons_of_mem _ hr))

/-- Zero total duration means zero chunks, hence an empty transcript. -/
lemma convert_and_transcribe_zero (cl : ℚ) (recognize : ℕ → ChunkResult) :
    convert_and_transcribe 0 cl recognize = "" := by
  simp only [convert_and_transcribe, num_chunks_zero, List.range_zero, List.map_nil]
  rfl

/-! ### Claim theorems -/

/-- C1: for every `total_duration ≥ 0` and `chunk_length > 0` the loop
generates `num_chunks = ceil(total_duration / chunk_length)` windows;
window `i` has `start = i * chunk_length` and
`end = min((i + 1) * chunk_length, total_duration)`; consecutive windows
are contiguous; distinct windows do not overlap; every window is a
nonempty subinterval of `[0, total_duration)`; and every point of
`[0, total_duration)` is covered by some window. -/
theorem chunk_windows_partition (d cl : ℚ) (hd : 0 ≤ d) (hcl : 0 < cl) :
    ((num_chunks d cl : ℤ) = Int.ceil (d / cl)) ∧
    (windows d cl).length = num_chunks d cl ∧
    (∀ i, i < num_chunks d cl →
      (windows d cl)[i]? = some ((i : ℚ) * cl, min (((i : ℚ) + 1) * cl) d)) ∧
    (∀ i, i + 1 < num_chunks d cl → windowEnd d cl i = windowStart cl (i + 1)) ∧
    (∀ i j, i < j → windowEnd d cl i ≤ windowStart cl j) ∧
    (∀ i, i < num_chunks d cl →
      0 ≤ windowStart cl i ∧ windowStart cl i < windowEnd d cl i ∧
        windowEnd d cl i ≤ d) ∧
    (∀ x : ℚ, 0 ≤ x → x < d →
      ∃ i, i < num_chunks d cl ∧ windowStart cl i ≤ x ∧ x < windowEnd d cl i) := by
  refine ⟨?_, windows_length d cl, windows_getElem d cl, ?_, ?_, ?_, ?_⟩
  · exact Int.toNat_of_nonneg (Int.ceil_nonneg (div_nonneg hd hcl.le))
  · intro i hi
    exact windowEnd_eq_of_lt hcl hi
  · intro i j hij
    exact windowEnd_le_windowStart hcl hij
  · intro i hi
    refine ⟨?_, windowStart_lt_windowEnd hcl hi, min_le_right _ _⟩
    unfold windowStart
    positivity
  · intro x hx0 hxd
    exact window_cover hcl hx0 hxd

/-- Witness for C1 at `total_duration = 45`, `chunk_length = 30`. -/
theorem chunk_windows_partition_witness :
    (0 ≤ (45 : ℚ)) ∧ (0 < (30 : ℚ)) ∧
    (((num_chunks 45 30 : ℤ) = Int.ceil ((45 : ℚ) / 30)) ∧
     (windows 45 30).length = num_chunks 45 30 ∧
     (∀ i, i < num_chunks 45 30 →
       (windows 45 30)[i]? = some ((i : ℚ) * 30, min (((i : ℚ) + 1) * 30) 45)) ∧
     (∀ i, i + 1 < num_chunks 45 30 → windowEnd 45 30 i = windowStart 30 (i + 1)) ∧
     (∀ i j, i < j → windowEnd 45 30 i ≤ windowStart 30 j) ∧
     (∀ i, i < num_chunks 45 30 →
       0 ≤ windowStart 30 i ∧ windowStart 30 i < windowEnd 45 30 i ∧
         windowEnd 45 30 i ≤ 45) ∧
     (∀ x : ℚ, 0 ≤ x → x < 45 →
       ∃ i, i < num_chunks 45 30 ∧ windowStart 30 i ≤ x ∧ x < windowEnd 45 30 i)) :=
  ⟨by decide, by decide, chunk_windows_partition 45 30 (by decide) (by decide)⟩

/-- C2: an unintelligible window contributes nothing and does not abort,
and on the outcome sequence `[Recognized "a", Unintelligible,
Recognized "b"]` the assembled transcript is exactly `"a b"`: texts
joined in window order by a single space, with no leading or trailing
whitespace. -/
theorem unintelligible_chunks_skipped :
    (∀ pre post, assemble_transcript (pre ++ ChunkResult.unintelligible :: post) =
        assemble_transcript (pre ++ post)) ∧
    assemble_transcript
        [ChunkResult.recognized ("a"), ChunkResult.unintelligible,
         ChunkResult.recognized ("b")] = "a b" := by
  constructor
  · intro pre post
    unfold assemble_transcript
    rw [transcribeLoop_unintelligible]
  · rfl

/-- C3: the first service error aborts the remaining windows — the
transcript equals the one assembled from the outcomes before the error,
results after the failure point are never appended, and no request is
issued past the failing one; on `[Recognized "a", ServiceError,
Recognized "c"]` the transcript is exactly `"a"`. -/
theorem service_error_aborts :
    (∀ pre m post, (∀ r ∈ pre, isServiceError r = false) →
      assemble_transcript (pre ++ ChunkResult.serviceError m :: post) =
          assemble_transcript pre ∧
      chunksProcessed (pre ++ ChunkResult.serviceError m :: post) = pre.length + 1) ∧
    assemble_transcript
        [ChunkResult.recognized ("a"), ChunkResult.serviceError ("boom"),
         ChunkResult.recognized ("c")] = "a" := by
  refine ⟨fun pre m post h => ⟨?_, chunksProcessed_stop pre h m post⟩, rfl⟩
  unfold assemble_transcript
  rw [transcribeLoop_stop _ pre h m post]

/-- Witness for C3 at `pre = [Recognized "a"]`, `post = [Recognized "c"]`. -/
theorem service_error_aborts_witness :
    (∀ r ∈ [ChunkResult.recognized ("a")], isServiceError r = false) ∧
    (assemble_transcript
        ([ChunkResult.recognized ("a")] ++
          ChunkResult.serviceError ("boom") :: [ChunkResult.recognized ("c")]) =
        assemble_transcript [ChunkResult.recognized ("a")] ∧
     chunksProcessed
        ([ChunkResult.recognized ("a")] ++
          ChunkResult.serviceError ("boom") :: [ChunkResult.recognized ("c")]) =
        [ChunkResult.recognized ("a")].length + 1) :=
  ⟨by decide,
   service_error_aborts.1 [ChunkResult.recognized ("a")] ("boom")
     [ChunkResult.recognized ("c")] (by decide)⟩

/-- C4: a zero total duration generates zero windows, issues zero
recognition requests, and returns the empty transcript. -/
theorem zero_duration_no_chunks (cl : ℚ) (recognize : ℕ → ChunkResult) :
    num_chunks 0 cl = 0 ∧
    windows 0 cl = [] ∧
    chunksProcessed ((List.range (num_chunks 0 cl)).map recognize) = 0 ∧
    convert_and_transcribe 0 cl recognize = "" := by
  refine ⟨num_chunks_zero cl, ?_, ?_, convert_and_transcribe_zero cl recognize⟩
  · simp [windows, num_chunks_zero]
  · simp [num_chunks_zero, chunksProcessed]

/-- C5: for positive total duration and chunk length, every window the
loop submits to the recognition service has strictly positive computed
duration `end - start`; no zero- or negative-length window is ever
submitted. -/
theorem no_degenerate_window_submitted (d cl : ℚ) (hd : 0 < d) (hcl : 0 < cl) :
    ∀ w ∈ windows d cl, 0 < w.2 - w.1 := by
  intro w hw
  have hd0 : 0 ≤ d := hd.le
  unfold windows at hw
  rcases List.mem_map.1 hw with ⟨i, hi, rfl⟩
  rw [List.mem_range] at hi
  have h := windowStart_lt_windowEnd hcl hi
  simpa [sub_pos] using h

/-- Witness for C5 at `total_duration = 45`, `chunk_length = 30`. -/
theorem no_degenerate_window_submitted_witness :
    (0 < (45 : ℚ)) ∧ (0 < (30 : ℚ)) ∧ ∀ w ∈ windows 45 30, 0 < w.2 - w.1 :=
  ⟨by decide, by decide, no_degenerate_window_submitted 45 30 (by decide) (by decide)⟩

/-- C6 counterexample: in app.py the whitespace-only input `" "` is
truthy, so `summarize_text` does not short-circuit and the model is
invoked on it. -/
theorem whitespace_input_invokes_model :
    summarize_text (" ") = SummarizeOutcome.modelInvoked (" ") ∧
    isSentinel (summarize_text (" ")) = false := by
  constructor <;> rfl

/-- C6 amended: empty input short-circuits to the sentinel without
invoking the model in app.py; in app2.py the file content is stripped
before the check, so any whitespace-only content short-circuits too.
Whitespace-only non-empty input to app.py does invoke the model. -/
theorem empty_input_short_circuits :
    summarize_text ("") = SummarizeOutcome.sentinel ("⚠️ No extracted text found.") ∧
    (∀ content, pyStrip content = "" →
      summarize_text2 (some content) =
        SummarizeOutcome.sentinel ("⚠️ extract.txt is empty — nothing to summarize.")) := by
  refine ⟨rfl, fun content h => ?_⟩
  simp only [summarize_text2]
  rw [if_pos h]

/-- Witness for C6 amended at the whitespace-only file content `"  \n "`. -/
theorem empty_input_short_circuits_witness :
    pyStrip ("  \n ") = "" ∧
    summarize_text2 (some ("  \n ")) =
      SummarizeOutcome.sentinel ("⚠️ extract.txt is empty — nothing to summarize.") :=
  ⟨by decide, empty_input_short_circuits.2 ("  \n ") (by decide)⟩

/-- C7: `convert_to_bullets` replaces every `<n>` marker with `". "`,
splits on periods, trims fragments, drops empty ones, and renders each
survivor as `"• " + fragment + "."` on its own line in split order; on
`"First sentence. Second one."` the bullets are `"• First sentence."`
and `"• Second one."` in that order. -/
theorem bullets_from_sentences :
    (∀ summary,
      convert_to_bullets summary = String.intercalate ("\n") (toBullets summary)) ∧
    toBullets ("First sentence. Second one.") =
      ["• First sentence.", "• Second one."] ∧
    convert_to_bullets ("First sentence. Second one.") =
      "• First sentence.\n• Second one." := by
  refine ⟨fun summary => rfl, by decide, by decide⟩

/-- C8 counterexample: on a decodable video with no audio stream,
`extract_audio` raises the generic `AttributeError` from calling
`write_audiofile` on `None`, not a dedicated `NoAudioStreamError`. -/
theorem missing_audio_raises_attribute_error :
    isNoAudioStreamError (extract_audio ⟨true, false⟩).1 = false ∧
    (extract_audio ⟨true, false⟩).1 =
      Except.error (PyError.attributeError
        ("NoneType object has no attribute write_audiofile")) := by
  constructor <;> rfl

/-- C8 amended: on every decodable video with no audio stream,
extraction fails, but with the generic `AttributeError` produced by
using the missing audio track; the source defines no dedicated
`NoAudioStreamError` and never produces one. -/
theorem missing_audio_error_classified (v : VideoFile)
    (hdec : v.decodable = true) (haud : v.hasAudioStream = false) :
    (extract_audio v).1 =
      Except.error (PyError.attributeError
        ("NoneType object has no attribute write_audiofile")) ∧
    isNoAudioStreamError (extract_audio v).1 = false := by
  unfold extract_audio
  rw [hdec, haud]
  exact ⟨rfl, rfl⟩

/-- Witness for C8 amended at a decodable, audio-less video. -/
theorem missing_audio_error_classified_witness :
    (VideoFile.mk true false).decodable = true ∧
    (VideoFile.mk true false).hasAudioStream = false ∧
    ((extract_audio ⟨true, false⟩).1 =
      Except.error (PyError.attributeError
        ("NoneType object has no attribute write_audiofile")) ∧
     isNoAudioStreamError (extract_audio ⟨true, false⟩).1 = false) :=
  ⟨rfl, rfl, missing_audio_error_classified ⟨true, false⟩ rfl rfl⟩

/-- C9 counterexample: on the missing-audio failure path the clip is
opened but `clip.close()` is never reached, so the decoder resource is
not released on that exit path. -/
theorem clip_not_closed_on_failure :
    (extract_audio ⟨true, false⟩).2.clipOpened = true ∧
    (extract_audio ⟨true, false⟩).2.clipClosed = false := by
  constructor <;> rfl

/-- C9 amended: `extract_audio` closes the opened clip on the success
path only; there is no `try/finally` or `with` block, so on a failing
path (such as a missing audio stream) the opened clip is never closed. -/
theorem clip_closed_only_on_success (v : VideoFile) :
    (v.decodable = true → v.hasAudioStream = true →
      (extract_audio v).2.clipOpened = true ∧ (extract_audio v).2.clipClosed = true) ∧
    (v.decodable = true → v.hasAudioStream = false →
      (extract_audio v).2.clipOpened = true ∧ (extract_audio v).2.clipClosed = false) := by
  constructor
  · intro hdec haud
    unfold extract_audio
    rw [hdec, haud]
    exact ⟨rfl, rfl⟩
  · intro hdec haud
    unfold extract_audio
    rw [hdec, haud]
    exact ⟨rfl, rfl⟩

/-- Witness for C9 amended on the success path of a decodable video with
audio. -/
theorem clip_closed_only_on_success_witness :
    (VideoFile.mk true true).decodable = true ∧
    (VideoFile.mk true true).hasAudioStream = true ∧
    ((extract_audio ⟨true, true⟩).2.clipOpened = true ∧
     (extract_audio ⟨true, true⟩).2.clipClosed = true) :=
  ⟨rfl, rfl, (clip_closed_only_on_success ⟨true, true⟩).1 rfl rfl⟩

/-- C10: a service error on the very first window makes the transcriber
return the empty string, the same value returned for zero-duration audio
and for a run whose every window is unintelligible, so the three cases
are indistinguishable from the returned transcript alone. -/
theorem first_chunk_error_indistinguishable (d cl cl2 : ℚ)
    (recognize recognize2 : ℕ → ChunkResult) (m : String) (n : ℕ)
    (h0 : recognize 0 = ChunkResult.serviceError m) :
    convert_and_transcribe d cl recognize = "" ∧
    convert_and_transcribe 0 cl2 recognize2 = "" ∧
    assemble_transcript (List.replicate n ChunkResult.unintelligible) = "" := by
  refine ⟨?_, convert_and_transcribe_zero cl2 recognize2, ?_⟩
  · unfold convert_and_transcribe assemble_transcript
    cases hn : num_chunks d cl with
    | zero => rfl
    | succ k =>
      rw [List.range_succ_eq_map, List.map_cons, h0]
      rfl
  · unfold assemble_transcript
    rw [transcribeLoop_all_unintelligible _ _ (fun r hr => List.eq_of_mem_replicate hr)]
    rfl

/-- Witness for C10 with a first-chunk service error at
`total_duration = 45`, `chunk_length = 30`, and a three-window
all-unintelligible run. -/
theorem first_chunk_error_indistinguishable_witness :
    (fun _ : ℕ => ChunkResult.serviceError ("boom")) 0 =
        ChunkResult.serviceError ("boom") ∧
    (convert_and_transcribe 45 30 (fun _ => ChunkResult.serviceError ("boom")) = "" ∧
     convert_and_transcribe 0 30 (fun _ => ChunkResult.recognized ("x")) = "" ∧
     assemble_transcript (List.replicate 3 ChunkResult.unintelligible) = "") :=
  ⟨rfl,
   first_chunk_error_indistinguishable 45 30 30
     (fun _ => ChunkResult.serviceError ("boom"))
     (fun _ => ChunkResult.recognized ("x")) ("boom") 3 rfl⟩

end AutoNotes
